import Mathlib

/-!
Verification of the running-wrapped pipeline
(`scripts/process_activities.py`, `scripts/download_activities.py`)
against its natural-language specification.

JSON values are shallowly embedded as an inductive type; Python dicts are
association lists with unique keys in insertion order; Python truthiness,
`dict.get`, and `or` are modelled explicitly.  Numbers are modelled as
integers: every claim treats numeric payloads as opaque pass-through data,
so no arithmetic on them is ever performed.
-/

namespace RunningWrapped

/-- A JSON value, as produced by Python's `json.load`. -/
inductive Json where
  | null : Json
  | bool : Bool → Json
  | num : Int → Json
  | str : String → Json
  | arr : List Json → Json
  | obj : List (String × Json) → Json
deriving Repr

mutual

/-- Decidable equality on JSON values (hand-rolled: automatic deriving
does not handle the nesting through lists). -/
def Json.decEq : (a b : Json) → Decidable (a = b)
  | .null, .null => isTrue rfl
  | .null, .bool _ => isFalse (fun h => Json.noConfusion h)
  | .null, .num _ => isFalse (fun h => Json.noConfusion h)
  | .null, .str _ => isFalse (fun h => Json.noConfusion h)
  | .null, .arr _ => isFalse (fun h => Json.noConfusion h)
  | .null, .obj _ => isFalse (fun h => Json.noConfusion h)
  | .bool _, .null => isFalse (fun h => Json.noConfusion h)
  | .bool a, .bool b =>
    if h : a = b then isTrue (by rw [h]) else
      isFalse (fun hh => h (Json.bool.inj hh))
  | .bool _, .num _ => isFalse (fun h => Json.noConfusion h)
  | .bool _, .str _ => isFalse (fun h => Json.noConfusion h)
  | .bool _, .arr _ => isFalse (fun h => Json.noConfusion h)
  | .bool _, .obj _ => isFalse (fun h => Json.noConfusion h)
  | .num _, .null => isFalse (fun h => Json.noConfusion h)
  | .num _, .bool _ => isFalse (fun h => Json.noConfusion h)
  | .num a, .num b =>
    if h : a = b then isTrue (by rw [h]) else
      isFalse (fun hh => h (Json.num.inj hh))
  | .num _, .str _ => isFalse (fun h => Json.noConfusion h)
  | .num _, .arr _ => isFalse (fun h => Json.noConfusion h)
  | .num _, .obj _ => isFalse (fun h => Json.noConfusion h)
  | .str _, .null => isFalse (fun h => Json.noConfusion h)
  | .str _, .bool _ => isFalse (fun h => Json.noConfusion h)
  | .str _, .num _ => isFalse (fun h => Json.noConfusion h)
  | .str a, .str b =>
    if h : a = b then isTrue (by rw [h]) else
      isFalse (fun hh => h (Json.str.inj hh))
  | .str _, .arr _ => isFalse (fun h => Json.noConfusion h)
  | .str _, .obj _ => isFalse (fun h => Json.noConfusion h)
  | .arr _, .null => isFalse (fun h => Json.noConfusion h)
  | .arr _, .bool _ => isFalse (fun h => Json.noConfusion h)
  | .arr _, .num _ => isFalse (fun h => Json.noConfusion h)
  | .arr _, .str _ => isFalse (fun h => Json.noConfusion h)
  | .arr xs, .arr ys =>
    match Json.decEqL xs ys with
    | isTrue h => isTrue (by rw [h])
    | isFalse h => isFalse (fun hh => h (Json.arr.inj hh))
  | .arr _, .obj _ => isFalse (fun h => Json.noConfusion h)
  | .obj _, .null => isFalse (fun h => Json.noConfusion h)
  | .obj _, .bool _ => isFalse (fun h => Json.noConfusion h)
  | .obj _, .num _ => isFalse (fun h => Json.noConfusion h)
  | .obj _, .str _ => isFalse (fun h => Json.noConfusion h)
  | .obj _, .arr _ => isFalse (fun h => Json.noConfusion h)
  | .obj xs, .obj ys =>
    match Json.decEqF xs ys with
    | isTrue h => isTrue (by rw [h])
    | isFalse h => isFalse (fun hh => h (Json.obj.inj hh))

/-- Decidable equality on lists of JSON values. -/
def Json.decEqL : (xs ys : List Json) → Decidable (xs = ys)
  | [], [] => isTrue rfl
  | [], _ :: _ => isFalse (fun h => List.noConfusion h)
  | _ :: _, [] => isFalse (fun h => List.noConfusion h)
  | x :: xs, y :: ys =>
    match Json.decEq x y with
    | isFalse h => isFalse (fun hh => h (List.cons.inj hh).1)
    | isTrue h1 =>
      match Json.decEqL xs ys with
      | isTrue h2 => isTrue (by rw [h1, h2])
      | isFalse h => isFalse (fun hh => h (List.cons.inj hh).2)

/-- Decidable equality on JSON object field lists. -/
def Json.decEqF : (xs ys : List (String × Json)) → Decidable (xs = ys)
  | [], [] => isTrue rfl
  | [], _ :: _ => isFalse (fun h => List.noConfusion h)
  | _ :: _, [] => isFalse (fun h => List.noConfusion h)
  | (k, v) :: xs, (l, w) :: ys =>
    if hk : k = l then
      match Json.decEq v w with
      | isFalse h =>
        isFalse (fun hh => h (congrArg Prod.snd (List.cons.inj hh).1))
      | isTrue h1 =>
        match Json.decEqF xs ys with
        | isTrue h2 => isTrue (by rw [hk, h1, h2])
        | isFalse h => isFalse (fun hh => h (List.cons.inj hh).2)
    else
      isFalse (fun hh => hk (congrArg Prod.fst (List.cons.inj hh).1))

end

instance : DecidableEq Json := Json.decEq

/-- Python truthiness of a JSON value (`if x:`):
`None`, `False`, `0`, `""`, `[]` and an empty dict are falsy. -/
def Json.truthy : Json → Bool
  | .null => false
  | .bool b => b
  | .num n => n != 0
  | .str s => s != ""
  | .arr xs => !xs.isEmpty
  | .obj fs => !fs.isEmpty

/-- Lookup in a Python dict (association list, unique keys):
`d.get(k)` before defaulting. -/
def dictGet (d : List (String × Json)) (k : String) : Option Json :=
  (d.find? (fun p => p.1 == k)).map (fun p => p.2)

/-- Python `d.get(k)`: `None` when the key is absent. -/
def pyGet (d : List (String × Json)) (k : String) : Json :=
  (dictGet d k).getD Json.null

/-- Python `d.get(k, dflt)`: the default is used only when the key is
absent; a key present with value `None` yields `None`. -/
def pyGetD (d : List (String × Json)) (k : String) (dflt : Json) : Json :=
  (dictGet d k).getD dflt

/-- Python `a or b`: `a` when truthy, else `b`. -/
def pyOr (a b : Json) : Json :=
  if a.truthy then a else b

/-- Python `str()` applied to a JSON scalar, as used for the stream
file name `f"{activity_id}.json"`.  Only scalar identifiers occur; the
container cases use a fixed placeholder (they never reach the file
system in the source either, and no claim depends on them). -/
def pyStr : Json → String
  | .null => "None"
  | .bool true => "True"
  | .bool false => "False"
  | .num n => toString n
  | .str s => s
  | .arr _ => "<list>"
  | .obj _ => "<dict>"

/-- The state of the on-disk stream artifact for one activity:
absent, present but not parseable as JSON, or parsed to a payload. -/
inductive StreamFile where
  | missing : StreamFile
  | malformed : StreamFile
  | parsed : Json → StreamFile
deriving DecidableEq, Repr

/-- The warnings `process_activities.py` can print while processing. -/
inductive Warn where
  | streamFileNotFound : String → Warn
  | streamParseFailed : String → Warn
  | missingId : List (String × Json) → Warn
deriving DecidableEq, Repr

/-- `load_stream_data(activity_id, data_dir)`: returns the parsed
payload, or an empty dict (with a warning) when the artifact is missing
or fails to parse. -/
def load_stream_data (f : StreamFile) (activity_id : String) :
    Json × List Warn :=
  match f with
  | .missing => (Json.obj [], [Warn.streamFileNotFound activity_id])
  | .malformed => (Json.obj [], [Warn.streamParseFailed activity_id])
  | .parsed j => (j, [])

/-- The list-of-typed-records scan of `process_activities` (lines 84-91):
left-to-right over the elements, each dict element whose `type` field
equals the channel name overwrites the accumulator with its `data`
field (defaulting to `[]` only when `data` is absent). -/
def extractChannels : List Json → Json × Json → Json × Json
  | [], acc => acc
  | s :: rest, (hr, vel) =>
    match s with
    | .obj fs =>
      if pyGet fs "type" = Json.str "heartrate" then
        extractChannels rest (pyGetD fs "data" (Json.arr []), vel)
      else if pyGet fs "type" = Json.str "velocity_smooth" then
        extractChannels rest (hr, pyGetD fs "data" (Json.arr []))
      else
        extractChannels rest (hr, vel)
    | _ => extractChannels rest (hr, vel)

/-- Channel extraction from a loaded stream payload
(`process_activities`, lines 79-101): falsy payloads and payloads that
are neither a list nor a dict yield empty channels; a list is scanned
by `extractChannels`; a dict is read at the two channel keys. -/
def streamChannels (stream_data : Json) : Json × Json :=
  if stream_data.truthy then
    match stream_data with
    | .arr xs => extractChannels xs (Json.arr [], Json.arr [])
    | .obj fs =>
        (pyGetD fs "heartrate" (Json.arr []),
         pyGetD fs "velocity_smooth" (Json.arr []))
    | _ => (Json.arr [], Json.arr [])
  else (Json.arr [], Json.arr [])

/-- The streams directory: the artifact state keyed by the stringified
activity identifier. -/
def StreamsDir := String → StreamFile

/-- The ProcessedActivity record built for one activity that passed the
filter and the identifier check (`process_activities`, lines 69-101),
with the fields in the source's insertion order. -/
def mkProcessedActivity (streams : StreamsDir) (a : List (String × Json)) :
    List (String × Json) :=
  let aid := pyGet a "id"
  let stream_data := (load_stream_data (streams (pyStr aid)) (pyStr aid)).1
  let ch := streamChannels stream_data
  [("id", aid),
   ("datetime", pyGet a "start_date_local"),
   ("duration", pyOr (pyGet a "moving_time") (pyGet a "elapsed_time")),
   ("distance", pyGet a "distance"),
   ("heartrate", ch.1),
   ("velocity_smooth", ch.2)]

/-- The per-activity step of the loop in `process_activities`
(lines 58-103): a non-`Run` activity is skipped with no warning, a
falsy identifier is skipped with a warning, otherwise one
ProcessedActivity is produced together with any stream-loading
warnings. -/
def processActivity (streams : StreamsDir) (a : List (String × Json)) :
    Option (List (String × Json)) × List Warn :=
  if pyGet a "type" = Json.str "Run" then
    let aid := pyGet a "id"
    if aid.truthy then
      (some (mkProcessedActivity streams a),
       (load_stream_data (streams (pyStr aid)) (pyStr aid)).2)
    else
      (none, [Warn.missingId a])
  else
    (none, [])

/-- `process_activities` over the whole activities collection: the
output records in order, and the warnings in order. -/
def process_activities (streams : StreamsDir) :
    List (List (String × Json)) →
    List (List (String × Json)) × List Warn
  | [] => ([], [])
  | a :: rest =>
    ((processActivity streams a).1.toList ++ (process_activities streams rest).1,
     (processActivity streams a).2 ++ (process_activities streams rest).2)

/-- Whether an activity record survives both checks of the loop:
category tag equal to `"Run"` and a truthy identifier. -/
def keepsActivity (a : List (String × Json)) : Bool :=
  pyGet a "type" = Json.str "Run" && (pyGet a "id").truthy

mutual

/-- A fixed serializer for JSON values, standing for the byte sequence
`json.dump` writes for a value: a deterministic function of the value
alone (the source passes no volatile options; key order is the dict's
insertion order). -/
def Json.render : Json → String
  | .null => "null"
  | .bool true => "true"
  | .bool false => "false"
  | .num n => toString n
  | .str s => "\"" ++ s ++ "\""
  | .arr xs => "[" ++ Json.renderL xs ++ "]"
  | .obj fs => "\x7b" ++ Json.renderF fs ++ "\x7d"

/-- Serialize the elements of a JSON array, comma separated. -/
def Json.renderL : List Json → String
  | [] => ""
  | [x] => Json.render x
  | x :: y :: xs => Json.render x ++ ", " ++ Json.renderL (y :: xs)

/-- Serialize the fields of a JSON object, comma separated. -/
def Json.renderF : List (String × Json) → String
  | [] => ""
  | [(k, v)] => "\"" ++ k ++ "\": " ++ Json.render v
  | (k, v) :: f :: fs =>
    "\"" ++ k ++ "\": " ++ Json.render v ++ ", " ++ Json.renderF (f :: fs)

end

/-- The whole Merger run as a function of its two input artifacts: the
serialized bytes of the output collection written to the output file. -/
def runMerger (streams : StreamsDir)
    (activities : List (List (String × Json))) : String :=
  Json.render (Json.arr ((process_activities streams activities).1.map Json.obj))

/-- The outcome of the network for one request made by
`make_api_request` in `download_activities.py`: an HTTP error status, a
transport-level URL error, a 2xx body that is not valid JSON, or a 2xx
body parsed to a JSON value. -/
inductive FetchOutcome where
  | httpError : Nat → FetchOutcome
  | urlError : FetchOutcome
  | badJson : FetchOutcome
  | ok : Json → FetchOutcome
deriving DecidableEq, Repr

/-- What `make_api_request` does as observed by its caller:
`exited c` is `sys.exit(c)` — a `SystemExit`, which subclasses
`BaseException`, not `Exception`; `raised` is a catchable `Exception`
(the `json.loads` decode error); `value` is a parsed response. -/
inductive ApiResult where
  | exited : Nat → ApiResult
  | raised : ApiResult
  | value : Json → ApiResult
deriving DecidableEq, Repr

/-- `make_api_request` (`download_activities.py`, lines 30-41): HTTP
and URL errors both print diagnostics and call `sys.exit(1)`; a body
that fails to decode raises a catchable exception. -/
def make_api_request : FetchOutcome → ApiResult
  | .httpError _ => ApiResult.exited 1
  | .urlError => ApiResult.exited 1
  | .badJson => ApiResult.raised
  | .ok j => ApiResult.value j

/-- The result of `get_activity_streams` for one activity: either the
whole process terminates with an exit code, or a value is produced
(`warned` records whether the `except Exception` handler fired). -/
inductive StreamsResult where
  | exited : Nat → StreamsResult
  | value : Json → Bool → StreamsResult
deriving DecidableEq, Repr

/-- `get_activity_streams` (`download_activities.py`, lines 62-71): its
`except Exception` catches catchable exceptions (warning, empty dict),
but a `SystemExit` raised inside `make_api_request` is not an
`Exception` and propagates out of the function. -/
def get_activity_streams (o : FetchOutcome) : StreamsResult :=
  match make_api_request o with
  | ApiResult.exited c => StreamsResult.exited c
  | ApiResult.raised => StreamsResult.value (Json.obj []) true
  | ApiResult.value j => StreamsResult.value j false

/-- The per-activity download loop of `main` in
`download_activities.py` (lines 116-130), as a function of the network
outcome for each activity identifier: visits the activities in order,
saves each truthy stream payload keyed by the stringified identifier,
and aborts the whole run if `get_activity_streams` lets a `SystemExit`
escape. -/
def downloadStreamsLoop (fetch : Json → FetchOutcome) :
    List (List (String × Json)) → Except Nat (List (String × Json))
  | [] => Except.ok []
  | a :: rest =>
    match get_activity_streams (fetch (pyGet a "id")) with
    | StreamsResult.exited c => Except.error c
    | StreamsResult.value streams _ =>
      match downloadStreamsLoop fetch rest with
      | Except.error c => Except.error c
      | Except.ok saved =>
        Except.ok (if streams.truthy
                   then (pyStr (pyGet a "id"), streams) :: saved
                   else saved)

/-- Whether a list element is a typed stream record tagged with the
given channel name. -/
def isChannelRecord (name : String) : Json → Bool
  | .obj fs => pyGet fs "type" = Json.str name
  | _ => false

/-- The data field carried by a typed stream record, defaulting to an
empty array only when the field is absent. -/
def recordData : Json → Json
  | .obj fs => pyGetD fs "data" (Json.arr [])
  | _ => Json.arr []

/-- The value supplied by the last element that is a record for the
given channel, or the default when no element is. -/
def lastChannelValue (name : String) (dflt : Json) (xs : List Json) :
    Json :=
  match xs.reverse.find? (isChannelRecord name) with
  | some r => recordData r
  | none => dflt

theorem lastChannelValue_cons (name : String) (dflt : Json) (s : Json)
    (rest : List Json) :
    lastChannelValue name dflt (s :: rest)
      = lastChannelValue name
          (if isChannelRecord name s then recordData s else dflt) rest := by
  unfold lastChannelValue
  rw [List.reverse_cons, List.find?_append]
  cases hfind : rest.reverse.find? (isChannelRecord name) with
  | some r => simp [hfind]
  | none =>
    cases hs : isChannelRecord name s <;> simp [hfind, hs, List.find?]

theorem extractChannels_eq_last (xs : List Json) :
    ∀ h v, extractChannels xs (h, v)
      = (lastChannelValue "heartrate" h xs,
         lastChannelValue "velocity_smooth" v xs) := by
  induction xs with
  | nil => intro h v; rfl
  | cons s rest ih =>
    intro h v
    rw [lastChannelValue_cons, lastChannelValue_cons]
    match s with
    | .null => simp [extractChannels, isChannelRecord, ih]
    | .bool b => simp [extractChannels, isChannelRecord, ih]
    | .num n => simp [extractChannels, isChannelRecord, ih]
    | .str t => simp [extractChannels, isChannelRecord, ih]
    | .arr ys => simp [extractChannels, isChannelRecord, ih]
    | .obj fs =>
      by_cases h1 : pyGet fs "type" = Json.str "heartrate"
      · have h2 : ¬ pyGet fs "type" = Json.str "velocity_smooth" := by
          rw [h1]; simp
        simp [extractChannels, isChannelRecord, recordData, h1, h2, ih]
      · by_cases h2 : pyGet fs "type" = Json.str "velocity_smooth"
        · simp [extractChannels, isChannelRecord, recordData, h1, h2, ih]
        · simp [extractChannels, isChannelRecord, h1, h2, ih]

/-- Claim C1: for every activities collection read by the Merger, the
output collection holds exactly one ProcessedActivity per input
activity that passes the category filter and has a truthy (non-empty)
identifier, in the same relative order as the input, and no entry for
any other activity. -/
theorem merger_output_exactly_filtered (streams : StreamsDir)
    (activities : List (List (String × Json))) :
    (process_activities streams activities).1
      = (activities.filter keepsActivity).map (mkProcessedActivity streams) := by
  induction activities with
  | nil => rfl
  | cons a rest ih =>
    by_cases h1 : pyGet a "type" = Json.str "Run"
    · by_cases h2 : (pyGet a "id").truthy = true
      · simp [process_activities, processActivity, keepsActivity, h1, h2, ih,
              List.filter_cons]
      · simp [process_activities, processActivity, keepsActivity, h1, h2, ih,
              List.filter_cons]
    · simp [process_activities, processActivity, keepsActivity, h1, ih,
            List.filter_cons]

/-- Claim C2 (code bug): an HTTP error while fetching one single
activity's streams makes make_api_request call sys.exit(1); the
resulting SystemExit is not caught by the except Exception handler of
get_activity_streams, so the whole download run terminates instead of
warning and continuing — here shown at a 404 on the first of two
activities, which aborts the loop with exit code 1. -/
theorem stream_fetch_http_error_kills_run :
    get_activity_streams (FetchOutcome.httpError 404)
      = StreamsResult.exited 1 ∧
    downloadStreamsLoop (fun _ => FetchOutcome.httpError 404)
      [[("id", Json.num 1)], [("id", Json.num 2)]] = Except.error 1 := by
  exact ⟨rfl, rfl⟩

/-- Claim C3 (counterexample): in list-of-typed-records form with two
heartrate records, the heartrate channel is the data of the second
(last) record, not of the first as the claim states. -/
theorem heartrate_first_record_claim_false :
    streamChannels (Json.arr
      [Json.obj [("type", Json.str "heartrate"), ("data", Json.arr [Json.num 1])],
       Json.obj [("type", Json.str "heartrate"), ("data", Json.arr [Json.num 2])]])
      = (Json.arr [Json.num 2], Json.arr []) ∧
    Json.arr [Json.num 2] ≠ Json.arr [Json.num 1] := by
  exact ⟨rfl, by decide⟩

/-- Claim C3 (amended): for every stream payload in
list-of-typed-records form, the LAST record whose channel name equals
"heartrate" supplies the heartrate channel and the LAST record whose
channel name equals "velocity_smooth" supplies the velocity channel
(each defaulting to an empty array when no record matches). -/
theorem list_form_last_record_supplies_channel (xs : List Json) :
    streamChannels (Json.arr xs)
      = (lastChannelValue "heartrate" (Json.arr []) xs,
         lastChannelValue "velocity_smooth" (Json.arr []) xs) := by
  cases xs with
  | nil => rfl
  | cons s rest =>
    simp only [streamChannels, Json.truthy, List.isEmpty_cons, Bool.not_false,
               if_true]
    exact extractChannels_eq_last (s :: rest) (Json.arr []) (Json.arr [])

/-- Claim C4 (counterexample): a stream artifact parsing to the
mapping \x7b"heartrate": null\x7d makes the produced ProcessedActivity
carry null as its heartrate field — the stored channel value is passed
through verbatim, so the field is neither a sequence nor non-null. -/
theorem heartrate_null_passthrough :
    pyGet (mkProcessedActivity
        (fun _ => StreamFile.parsed (Json.obj [("heartrate", Json.null)]))
        [("type", Json.str "Run"), ("id", Json.num 5)]) "heartrate"
      = Json.null ∧
    (∀ xs : List Json, Json.null ≠ Json.arr xs) := by
  exact ⟨rfl, fun xs h => Json.noConfusion h⟩

/-- Claim C4 (amended): the heartrate and velocity_smooth keys are
always present in every produced ProcessedActivity; they are empty
sequences whenever the stream artifact is missing or malformed, but
when a channel key is present in the payload its stored value is
copied verbatim, so it may be null or any other shape. -/
theorem channels_always_present (streams : StreamsDir)
    (a : List (String × Json)) :
    (dictGet (mkProcessedActivity streams a) "heartrate").isSome = true ∧
    (dictGet (mkProcessedActivity streams a) "velocity_smooth").isSome = true ∧
    ((streams (pyStr (pyGet a "id")) = StreamFile.missing ∨
      streams (pyStr (pyGet a "id")) = StreamFile.malformed) →
      dictGet (mkProcessedActivity streams a) "heartrate"
          = some (Json.arr []) ∧
      dictGet (mkProcessedActivity streams a) "velocity_smooth"
          = some (Json.arr [])) := by
  refine ⟨rfl, rfl, fun h => ?_⟩
  rcases h with h | h <;>
  · simp only [mkProcessedActivity]
    rw [h]
    exact ⟨rfl, rfl⟩

/-- Claim C4 (witness): the amended statement applied to a concrete
activity whose stream artifact is missing. -/
theorem channels_always_present_witness :
    dictGet (mkProcessedActivity (fun _ => StreamFile.missing)
        [("type", Json.str "Run"), ("id", Json.num 1)]) "heartrate"
      = some (Json.arr []) :=
  (channels_always_present (fun _ => StreamFile.missing)
    [("type", Json.str "Run"), ("id", Json.num 1)]).2.2 (Or.inl rfl) |>.1

/-- Claim C5 (counterexample): an activity with moving_time present
and equal to 0 and elapsed_time = 1800 gets duration 1800, not its
present moving_time 0: the fallback is by Python truthiness, not by
key presence. -/
theorem duration_zero_moving_time_falls_through :
    pyGet (mkProcessedActivity (fun _ => StreamFile.missing)
        [("type", Json.str "Run"), ("id", Json.num 7),
         ("moving_time", Json.num 0), ("elapsed_time", Json.num 1800)])
        "duration"
      = Json.num 1800 ∧ Json.num 1800 ≠ Json.num 0 := by
  exact ⟨rfl, by decide⟩

/-- Claim C5 (amended): the duration key is always present in the
output record; its value is moving_time when moving_time is truthy
(present, non-null and nonzero), and otherwise the verbatim
elapsed_time value — which is null (not an absent key) when both
fields are absent. -/
theorem duration_truthy_fallback_always_present (streams : StreamsDir)
    (a : List (String × Json)) :
    dictGet (mkProcessedActivity streams a) "duration"
      = some (if (pyGet a "moving_time").truthy then pyGet a "moving_time"
              else pyGet a "elapsed_time") := by
  rfl

/-- Claim C6: a malformed (present but unparseable) stream artifact
produces a warning naming the activity, an output entry whose two
channels are empty sequences — the same entry shape as the no-artifact
case — and the run continues over the remaining activities. -/
theorem malformed_stream_warns_and_continues (streams : StreamsDir)
    (a : List (String × Json)) (rest : List (List (String × Json)))
    (h1 : pyGet a "type" = Json.str "Run")
    (h2 : (pyGet a "id").truthy = true)
    (h3 : streams (pyStr (pyGet a "id")) = StreamFile.malformed) :
    process_activities streams (a :: rest)
      = (mkProcessedActivity streams a
           :: (process_activities streams rest).1,
         Warn.streamParseFailed (pyStr (pyGet a "id"))
           :: (process_activities streams rest).2) ∧
    dictGet (mkProcessedActivity streams a) "heartrate"
        = some (Json.arr []) ∧
    dictGet (mkProcessedActivity streams a) "velocity_smooth"
        = some (Json.arr []) := by
  refine ⟨?_, ?_, ?_⟩
  · simp only [process_activities, processActivity]
    rw [h3]
    simp [h1, h2, load_stream_data]
  · simp only [mkProcessedActivity]
    rw [h3]
    rfl
  · simp only [mkProcessedActivity]
    rw [h3]
    rfl

/-- Claim C6 (witness): the theorem applied to a concrete Run activity
whose stream artifact is malformed. -/
theorem malformed_stream_warns_and_continues_witness :
    process_activities (fun _ => StreamFile.malformed)
        [[("type", Json.str "Run"), ("id", Json.num 3)]]
      = ([mkProcessedActivity (fun _ => StreamFile.malformed)
            [("type", Json.str "Run"), ("id", Json.num 3)]],
         [Warn.streamParseFailed "3"]) :=
  (malformed_stream_warns_and_continues (fun _ => StreamFile.malformed)
    [("type", Json.str "Run"), ("id", Json.num 3)] [] rfl rfl rfl).1

/-- Claim C7: for every stream payload in mapping-of-channels form the
Merger reads the "heartrate" and "velocity_smooth" keys directly,
absent keys yielding empty sequences; in particular the payload with
heartrate [1,2,3] and velocity_smooth [4,5] merges to exactly those
two sequences. -/
theorem mapping_form_reads_channel_keys (fs : List (String × Json)) :
    streamChannels (Json.obj fs)
      = ((dictGet fs "heartrate").getD (Json.arr []),
         (dictGet fs "velocity_smooth").getD (Json.arr [])) ∧
    streamChannels (Json.obj
        [("heartrate", Json.arr [Json.num 1, Json.num 2, Json.num 3]),
         ("velocity_smooth", Json.arr [Json.num 4, Json.num 5])])
      = (Json.arr [Json.num 1, Json.num 2, Json.num 3],
         Json.arr [Json.num 4, Json.num 5]) := by
  refine ⟨?_, rfl⟩
  cases fs with
  | nil => rfl
  | cons f fs => rfl

/-- Claim C8: the Merger is a deterministic function of its input
artifacts — two runs over the same activities collection and the same
stream files serialize byte-for-byte identical output. -/
theorem merger_deterministic (s1 s2 : StreamsDir)
    (acts1 acts2 : List (List (String × Json)))
    (hs : s1 = s2) (ha : acts1 = acts2) :
    runMerger s1 acts1 = runMerger s2 acts2 := by
  rw [hs, ha]

/-- Claim C8 (witness): the theorem applied to one concrete input. -/
theorem merger_deterministic_witness :
    runMerger (fun _ => StreamFile.missing)
        [[("type", Json.str "Run"), ("id", Json.num 7)]]
      = runMerger (fun _ => StreamFile.missing)
        [[("type", Json.str "Run"), ("id", Json.num 7)]] :=
  merger_deterministic _ _ _ _ rfl rfl

/-- Claim C9: an activity whose category tag is not "Run" (or absent)
is silently excluded: the run over it equals the run over the rest,
with no output entry and no warning — the Merger re-applies the
category filter itself. -/
theorem non_run_skipped_silently (streams : StreamsDir)
    (a : List (String × Json)) (rest : List (List (String × Json)))
    (h : pyGet a "type" ≠ Json.str "Run") :
    process_activities streams (a :: rest)
      = process_activities streams rest := by
  simp [process_activities, processActivity, h]

/-- Claim C9 (witness): the theorem applied to a concrete activity of
category "Ride". -/
theorem non_run_skipped_silently_witness :
    process_activities (fun _ => StreamFile.missing)
        [[("type", Json.str "Ride"), ("id", Json.num 3)]]
      = process_activities (fun _ => StreamFile.missing) [] :=
  non_run_skipped_silently (fun _ => StreamFile.missing)
    [("type", Json.str "Ride"), ("id", Json.num 3)] [] (by decide)

/-- Claim C10: an activity whose identifier is present but falsy — the
number 0 or the empty string — is dropped with the same
missing-identifier warning and produces no ProcessedActivity, exactly
the result of the missing-identifier code path. -/
theorem falsy_id_dropped_with_warning (streams : StreamsDir)
    (a : List (String × Json))
    (h1 : pyGet a "type" = Json.str "Run")
    (h2 : pyGet a "id" = Json.num 0 ∨ pyGet a "id" = Json.str "") :
    processActivity streams a = (none, [Warn.missingId a]) := by
  rcases h2 with h2 | h2 <;> simp [processActivity, h1, h2, Json.truthy]

/-- Claim C10 (witness): the theorem applied to a concrete Run
activity whose identifier is the number 0. -/
theorem falsy_id_dropped_with_warning_witness :
    processActivity (fun _ => StreamFile.missing)
        [("type", Json.str "Run"), ("id", Json.num 0)]
      = (none, [Warn.missingId
          [("type", Json.str "Run"), ("id", Json.num 0)]]) :=
  falsy_id_dropped_with_warning (fun _ => StreamFile.missing)
    [("type", Json.str "Run"), ("id", Json.num 0)] rfl (Or.inl rfl)

end RunningWrapped
